import Mathlib

/-!
Verification of the gaussian-splatting training driver and the
render-from-json tool against their specification.

The C++ sources are shallowly embedded:
* the top-level driver `main` (argument parsing, viewer mode, config save,
  dataset creation, model initialisation, GUI/headless training dispatch)
  becomes `mainRun : MainEnv → MainOutcome`, where `MainEnv` carries the
  results of each fallible collaborator call (std::expected values) and
  `MainOutcome` records the exit code, stderr lines and which components
  were constructed / invoked;
* the render-from-json tool's `main` becomes `toolMain : ToolEnv → ToolOutcome`
  with the camera loop `renderLoop`;
* the two camera (R, T) constructions of the tool's variants become exact
  rational-matrix functions (`camR1`/`camT1` and `camR2`/`camT2`);
* components of this repository that live outside the given sources
  (MCMC strategy, trainer loop, rasterizer signature) are modelled from the
  specification, each marked as such in its doc comment.
-/

/-! ## Driver (training program `main`) -/

/-- Optimization-parameter fields of `params` read by `main`. -/
structure OptimizationParams where
  headless : Bool
  antialiasing : Bool
  deriving Repr, DecidableEq

/-- Parameter fields of `params` read by `main`. -/
structure GsParams where
  viewer_mode : Bool
  optimization : OptimizationParams
  deriving Repr, DecidableEq

/-- Environment of one run of the driver: the result of each fallible
collaborator call made by `main` (each is a `std::expected` in the source),
plus the value of `trainer->is_running()` observed when the GUI closes. -/
structure MainEnv where
  parse : Except String GsParams
  loadPly : Except String Nat
  saveConfig : Except String Unit
  createDataset : Except String Unit
  initModel : Except String Unit
  createViewer : Except String Unit
  train : Except String Unit
  trainerRunningAtViewerClose : Bool
  deriving Repr

/-- Observable outcome of one run of the driver. -/
structure MainOutcome where
  exitCode : Int
  stderrLines : List String
  datasetCreated : Bool
  strategyCreated : Bool
  trainerCreated : Bool
  trainerInvoked : Bool
  viewerRan : Bool
  stopRequested : Bool
  threadJoined : Bool
  deriving Repr, DecidableEq

/-- Outcome of an early fatal exit (before dataset/strategy/trainer exist). -/
def earlyExit (msg : String) : MainOutcome :=
  { exitCode := -1, stderrLines := [msg], datasetCreated := false,
    strategyCreated := false, trainerCreated := false, trainerInvoked := false,
    viewerRan := false, stopRequested := false, threadJoined := false }

/-- Embedding of the driver `main` (src/unnamed/part_000, lines 13-150).
Mirrors its control flow: argument parsing, viewer mode, config save,
dataset creation, model initialisation, strategy/trainer construction, and
the GUI (jthread) versus headless training dispatch. -/
def mainRun (env : MainEnv) : MainOutcome :=
  match env.parse with
  | .error e => earlyExit ("Error: " ++ e)
  | .ok params =>
    if params.viewer_mode then
      match env.loadPly with
      | .error e => earlyExit ("Error loading PLY: " ++ e)
      | .ok _ =>
        { exitCode := 0, stderrLines := [], datasetCreated := false,
          strategyCreated := false, trainerCreated := false,
          trainerInvoked := false, viewerRan := true,
          stopRequested := false, threadJoined := false }
    else
      match env.saveConfig with
      | .error e => earlyExit ("Error saving config: " ++ e)
      | .ok _ =>
        match env.createDataset with
        | .error e => earlyExit ("Error creating dataset: " ++ e)
        | .ok _ =>
          match env.initModel with
          | .error e =>
            { earlyExit ("Error initializing model: " ++ e) with
              datasetCreated := true }
          | .ok _ =>
            if !params.optimization.headless then
              match env.createViewer with
              | .error e =>
                { exitCode := -1,
                  stderrLines := ["Error creating viewer: " ++ e],
                  datasetCreated := true, strategyCreated := true,
                  trainerCreated := true, trainerInvoked := false,
                  viewerRan := false, stopRequested := false,
                  threadJoined := false }
              | .ok _ =>
                { exitCode := 0,
                  stderrLines :=
                    match env.train with
                    | .error e => ["Training error: " ++ e]
                    | .ok _ => [],
                  datasetCreated := true, strategyCreated := true,
                  trainerCreated := true, trainerInvoked := true,
                  viewerRan := true,
                  stopRequested := env.trainerRunningAtViewerClose,
                  threadJoined := true }
            else
              match env.train with
              | .error e =>
                { exitCode := -1, stderrLines := ["Training error: " ++ e],
                  datasetCreated := true, strategyCreated := true,
                  trainerCreated := true, trainerInvoked := true,
                  viewerRan := false, stopRequested := false,
                  threadJoined := false }
              | .ok _ =>
                { exitCode := 0, stderrLines := [],
                  datasetCreated := true, strategyCreated := true,
                  trainerCreated := true, trainerInvoked := true,
                  viewerRan := false, stopRequested := false,
                  threadJoined := false }

/-- A concrete GUI-mode environment whose training thread fails:
all setup steps succeed, headless is false, and `train` returns an error. -/
def envGuiTrainErr : MainEnv :=
  { parse := .ok { viewer_mode := false,
                   optimization := { headless := false, antialiasing := false } },
    loadPly := .ok 0, saveConfig := .ok (), createDataset := .ok (),
    initModel := .ok (), createViewer := .ok (),
    train := .error "boom", trainerRunningAtViewerClose := false }

/-- Modelled from the spec: the Trainer's cancelable training loop body is not in
the given sources; per the spec, cancellation is "checked at iteration
boundaries (before starting rasterize for the next camera)". The loop
completes whole iterations and consults the stop token only between them;
`done` counts fully completed iterations. -/
def trainCancelable (stopToken : Nat → Bool) : Nat → Nat → Nat
  | 0, done => done
  | fuel + 1, done =>
    if stopToken done then done
    else trainCancelable stopToken fuel (done + 1)

/-! ## Render-from-JSON tool (src/tools/render_from_json.cpp, first variant) -/

/-- One camera entry of the input JSON, as read by the tool's loop:
whether the `intrinsics` and `extrinsics` keys are present, and the
optional `width`, `height` and `img_id` fields read via `json.value`. -/
structure CamEntry where
  hasIntrinsics : Bool
  hasExtrinsics : Bool
  width : Option Int
  height : Option Int
  img_id : Option String
  deriving Repr, DecidableEq

/-- The data the tool passes to the `Camera` constructor for one rendered
entry: the `width`/`height` values, the image id string, and the running
`cam_idx` passed as `uid`. -/
structure RenderedCam where
  width : Int
  height : Int
  img_id : String
  uid : Nat
  deriving Repr, DecidableEq

/-- Top-level shape of the parsed camera JSON: an array of entries, a single
object (treated as a one-entry list), or anything else (rejected). -/
inductive JsonTop where
  | arr : List CamEntry → JsonTop
  | obj : CamEntry → JsonTop
  | other : JsonTop
  deriving Repr, DecidableEq

/-- The camera list the tool builds from the top-level JSON (lines 40-48);
`none` when the JSON is neither an array nor an object. -/
def entriesOf : JsonTop → Option (List CamEntry)
  | .arr es => some es
  | .obj e => some [e]
  | .other => none

/-- An entry is processed only when both `intrinsics` and `extrinsics`
keys are present (line 53). -/
def wellFormedEntry (e : CamEntry) : Bool :=
  e.hasIntrinsics && e.hasExtrinsics

/-- Body of the tool's camera loop for one entry at running index
`cam_idx`: skip (`none`) when `intrinsics`/`extrinsics` is missing,
otherwise build the `Camera` inputs with `json.value` defaults —
`width`/`height` default to 0 and `img_id` to `std::to_string(cam_idx)`
(lines 53-91). -/
def processEntry (cam_idx : Nat) (e : CamEntry) : Option RenderedCam :=
  if !wellFormedEntry e then none
  else some { width := e.width.getD 0, height := e.height.getD 0,
              img_id := e.img_id.getD (toString cam_idx), uid := cam_idx }

/-- The tool's camera loop (lines 51-98): iterate over the entries with a
running `cam_idx`; a malformed entry emits a warning and leaves `cam_idx`
unchanged; a processed entry is rendered and then `++cam_idx` runs.
Returns the rendered cameras in order together with the warning lines. -/
def renderLoop : List CamEntry → Nat → List RenderedCam × List String
  | [], _ => ([], [])
  | e :: rest, cam_idx =>
    match processEntry cam_idx e with
    | none =>
      let (cams, warns) := renderLoop rest cam_idx
      (cams, "Camera entry missing intrinsics or extrinsics" :: warns)
    | some c =>
      let (cams, warns) := renderLoop rest (cam_idx + 1)
      (c :: cams, warns)

/-- Environment of one run of the tool: whether at least the three required
arguments were given (`argc >= 4`), whether the PLY and JSON files exist,
the PLY load result, and the parsed top-level JSON. -/
structure ToolEnv where
  argcOk : Bool
  plyExists : Bool
  jsonExists : Bool
  plyLoad : Except String Unit
  json : JsonTop
  deriving Repr

/-- Observable outcome of one run of the tool. -/
structure ToolOutcome where
  exitCode : Int
  fatalLines : List String
  warnings : List String
  rendered : List RenderedCam
  deriving Repr, DecidableEq

/-- Embedding of the tool's `main` (first variant, lines 10-101): usage
check, file-existence checks, PLY load, top-level JSON shape check, then
the camera loop starting at `cam_idx = 0`. Only the pre-loop checks are
fatal (exit 1); the loop itself never aborts the run. -/
def toolMain (env : ToolEnv) : ToolOutcome :=
  if !env.argcOk then
    { exitCode := 1, fatalLines := ["Usage"], warnings := [], rendered := [] }
  else if !env.plyExists then
    { exitCode := 1, fatalLines := ["PLY file not found"], warnings := [],
      rendered := [] }
  else if !env.jsonExists then
    { exitCode := 1, fatalLines := ["Camera JSON file not found"],
      warnings := [], rendered := [] }
  else
    match env.plyLoad with
    | .error e =>
      { exitCode := 1, fatalLines := ["Failed to load PLY: " ++ e],
        warnings := [], rendered := [] }
    | .ok _ =>
      match entriesOf env.json with
      | none =>
        { exitCode := 1, fatalLines := ["Invalid JSON format"],
          warnings := [], rendered := [] }
      | some es =>
        let (cams, warns) := renderLoop es 0
        { exitCode := 0, fatalLines := [], warnings := warns,
          rendered := cams }

/-! ## Camera (R, T) construction in the tool's two variants

The float tensor arithmetic of the source is idealised over exact
rationals; `torch::inverse` is represented by handing each variant the
matrix it would have computed, certified by the defining equations
`c2w * w2c = 1` (and symmetrically). -/

/-- 4x4 rational matrices, indexed like the `c2w`/`w2c` tensors. -/
abbrev Mat4 := Fin 4 → Fin 4 → ℚ

/-- 3x3 rational matrices, for the extracted rotation blocks. -/
abbrev Mat3 := Fin 3 → Fin 3 → ℚ

/-- Length-3 rational vectors, for the extracted translation columns. -/
abbrev Vec3 := Fin 3 → ℚ

/-- 4x4 matrix product, written out as the four-term dot products. -/
def mul4 (A B : Mat4) : Mat4 := fun i j =>
  A i 0 * B 0 j + A i 1 * B 1 j + A i 2 * B 2 j + A i 3 * B 3 j

/-- The 4x4 identity matrix. -/
def id4 : Mat4 := fun i j => if i = j then 1 else 0

/-- The in-place update `c2w[:3, 1:3] *= -1` of `parse_camera_json`
(line 141): negate columns 1 and 2 of the top three rows only. -/
def negCols12 (A : Mat4) : Mat4 := fun i j =>
  if i.val < 3 ∧ (j.val = 1 ∨ j.val = 2) then -(A i j) else A i j

/-- The sign matrix diag(1, -1, -1, 1). -/
def D4 : Mat4 := fun i j =>
  if i = j then (if i.val = 1 ∨ i.val = 2 then -1 else 1) else 0

/-- The slice `W[0:3, 0:3]` of a 4x4 matrix. -/
def topLeft3 (W : Mat4) : Mat3 := fun i j => W i.castSucc j.castSucc

/-- The slice `W[0:3, 3]` of a 4x4 matrix. -/
def lastCol (W : Mat4) : Vec3 := fun i => W i.castSucc 3

/-- 3x3 matrix transpose (`.t()`). -/
def transpose3 (M : Mat3) : Mat3 := fun i j => M j i

/-- First variant (lines 69-78): `R = w2c[0:3, 0:3]` where
`w2c = torch::inverse(c2w)`. -/
def camR1 (w2c : Mat4) : Mat3 := topLeft3 w2c

/-- First variant (line 71): `T = w2c[0:3, 3]`. -/
def camT1 (w2c : Mat4) : Vec3 := lastCol w2c

/-- Second variant, `parse_camera_json` (lines 147-148): `info.R` is the
transposed top-left block of `w2c' = torch::inverse(c2w')`, where `c2w'`
is `c2w` with columns 1-2 of the top rows negated. -/
def infoR (w2c2 : Mat4) : Mat3 := transpose3 (topLeft3 w2c2)

/-- Second variant, `Camera` construction (line 243): the camera receives
`info.R.t()`, i.e. the double transpose of the top-left block. -/
def camR2 (w2c2 : Mat4) : Mat3 := transpose3 (infoR w2c2)

/-- Second variant (line 149): `info.T = w2c'[0:3, 3]`, passed unchanged. -/
def camT2 (w2c2 : Mat4) : Vec3 := lastCol w2c2

/-- Negation of rows 1 and 2 of a 3x3 matrix. -/
def negRows12 (M : Mat3) : Mat3 := fun i j =>
  if i.val = 1 ∨ i.val = 2 then -(M i j) else M i j

/-- Negation of components 1 and 2 of a vector. -/
def negRows12v (v : Vec3) : Vec3 := fun i =>
  if i.val = 1 ∨ i.val = 2 then -(v i) else v i

/-! ## MCMC strategy (spec-modelled) and rasterizer call sites -/

/-- A single splat's attributes (spec §3): position mean, log-scale,
unit-quaternion rotation, pre-activation opacity, SH color block. -/
structure Splat where
  position : ℚ × ℚ × ℚ
  log_scale : ℚ × ℚ × ℚ
  rotation : ℚ × ℚ × ℚ × ℚ
  opacity_raw : ℚ
  sh : List ℚ
  deriving Repr, DecidableEq

/-- Modelled from the spec: the MCMC strategy's configuration
(core/mcmc.hpp is not among the given sources). Spec §4.2 and §6: maximum
splat budget, refine cadence, start/stop iterations. -/
structure McmcConfig where
  max_cap : Nat
  refine_every : Nat
  start_iteration : Nat
  stop_iteration : Nat
  deriving Repr, DecidableEq

/-- Modelled from the spec: relocate-dead (spec §4.2 step 1) resamples the
attributes of dead splats in place; the population count is unchanged. -/
def relocateDead (dead : Splat → Bool) (resample : Splat → Splat)
    (splats : List Splat) : List Splat :=
  splats.map fun s => if dead s then resample s else s

/-- Modelled from the spec: grow (spec §4.2 step 2) appends new child
splats only while `N < budget`, and "growth is capped by remaining budget,
never exceeding the maximum" (spec §4.2 tie-breaks). -/
def growSplats (cfg : McmcConfig) (children : List Splat)
    (splats : List Splat) : List Splat :=
  if splats.length < cfg.max_cap then
    splats ++ children.take (cfg.max_cap - splats.length)
  else splats

/-- Modelled from the spec: noise injection (spec §4.2 step 3) perturbs
positions in place; the population count is unchanged. -/
def injectNoise (perturb : Splat → Splat) (splats : List Splat) :
    List Splat :=
  splats.map perturb

/-- Inputs a single refine step needs from the sampling machinery. -/
structure RefineInput where
  dead : Splat → Bool
  resample : Splat → Splat
  children : List Splat
  perturb : Splat → Splat

/-- Modelled from the spec: one refine pass — relocate-dead, then grow,
then noise injection (spec §4.2). -/
def refineStep (cfg : McmcConfig) (inp : RefineInput)
    (splats : List Splat) : List Splat :=
  injectNoise inp.perturb (growSplats cfg inp.children
    (relocateDead inp.dead inp.resample splats))

/-- Modelled from the spec: the strategy's post-step hook at iteration
`iter` refines only every `refine_every` iterations within
`[start_iteration, stop_iteration)` (spec §4.2); otherwise the population
is untouched. -/
def postStep (cfg : McmcConfig) (iter : Nat) (inp : RefineInput)
    (splats : List Splat) : List Splat :=
  if cfg.start_iteration ≤ iter ∧ iter < cfg.stop_iteration ∧
      iter % cfg.refine_every = 0 then
    refineStep cfg inp splats
  else splats

/-- A whole training run's population evolution: fold the post-step hook
over the iteration/input trace. -/
def runStrategy (cfg : McmcConfig) (steps : List (Nat × RefineInput))
    (splats : List Splat) : List Splat :=
  steps.foldl (fun acc st => postStep cfg st.1 st.2 acc) splats

/-- Render modes of the rasterizer interface; the driver passes
`RenderMode::RGB`. -/
inductive RenderMode where
  | RGB
  deriving Repr, DecidableEq

/-- Modelled from the spec: the full argument record of the external
rasterizer interface `render(camera, model, background_color,
scaling_modifier, opacity_only, antialiasing, mode)` (spec §6);
core/rasterizer.hpp is not among the given sources. -/
structure RasterizeInput (Cam Model Color : Type) where
  camera : Cam
  model : Model
  background_color : Color
  scaling_modifier : ℚ
  opacity_only : Bool
  antialiasing : Bool
  mode : RenderMode

/-- Modelled from the spec: the rasterizer's result record
`{image, alpha, per-splat auxiliary stats}` (spec §6). -/
structure RasterizeOutput (Img Alpha Aux : Type) where
  image : Img
  alpha : Alpha
  aux : Aux

/-- The core's `gs::rasterize` invocation (src/unnamed/part_000, lines
164-171): camera, current model, background, configured scaling modifier,
`false` for opacity-only, the anti-aliasing flag, `RenderMode::RGB`. -/
def coreRasterizeCall {Cam Model Color : Type} (cam : Cam) (model : Model)
    (background : Color) (scaling_modifier : ℚ) (anti_aliasing : Bool) :
    RasterizeInput Cam Model Color :=
  { camera := cam, model := model, background_color := background,
    scaling_modifier := scaling_modifier, opacity_only := false,
    antialiasing := anti_aliasing, mode := RenderMode.RGB }

/-- The explicit arguments of the tool's `gs::rasterize(cam, model,
bg_color)` call (src/tools/render_from_json.cpp, line 93). -/
structure ToolRasterizeArgs (Cam Model Color : Type) where
  camera : Cam
  model : Model
  background_color : Color

/-- The tool's rasterize call site packs the camera, the loaded model and
the background color. -/
def toolRasterizeCall {Cam Model Color : Type} (cam : Cam) (model : Model)
    (bg_color : Color) : ToolRasterizeArgs Cam Model Color :=
  { camera := cam, model := model, background_color := bg_color }

/-! ## Concrete environments used by the witness theorems -/

/-- Training parameters: headless run. -/
def paramsHeadless : GsParams :=
  { viewer_mode := false,
    optimization := { headless := true, antialiasing := false } }

/-- Training parameters: GUI run. -/
def paramsGui : GsParams :=
  { viewer_mode := false,
    optimization := { headless := false, antialiasing := false } }

/-- Parameters selecting viewer-only mode. -/
def paramsViewer : GsParams :=
  { viewer_mode := true,
    optimization := { headless := false, antialiasing := true } }

/-- Headless run in which every setup step succeeds and training fails. -/
def envHeadlessErr : MainEnv :=
  { parse := .ok paramsHeadless, loadPly := .ok 0, saveConfig := .ok (),
    createDataset := .ok (), initModel := .ok (), createViewer := .ok (),
    train := .error "boom", trainerRunningAtViewerClose := false }

/-- GUI run: all steps succeed, training still running when the GUI
closes. -/
def envGuiCancel : MainEnv :=
  { parse := .ok paramsGui, loadPly := .ok 0, saveConfig := .ok (),
    createDataset := .ok (), initModel := .ok (), createViewer := .ok (),
    train := .ok (), trainerRunningAtViewerClose := true }

/-- Run whose argument parsing fails. -/
def envParseErr : MainEnv :=
  { parse := .error "bad arguments", loadPly := .ok 0, saveConfig := .ok (),
    createDataset := .ok (), initModel := .ok (), createViewer := .ok (),
    train := .ok (), trainerRunningAtViewerClose := false }

/-- Viewer-only run with a loadable PLY of five gaussians. -/
def envViewerOk : MainEnv :=
  { parse := .ok paramsViewer, loadPly := .ok 5, saveConfig := .ok (),
    createDataset := .ok (), initModel := .ok (), createViewer := .ok (),
    train := .ok (), trainerRunningAtViewerClose := false }

/-- A camera entry carrying both required keys. -/
def sampleGoodEntry : CamEntry :=
  { hasIntrinsics := true, hasExtrinsics := true, width := some 640,
    height := some 480, img_id := none }

/-- A camera entry missing the `extrinsics` key. -/
def sampleBadEntry : CamEntry :=
  { hasIntrinsics := true, hasExtrinsics := false, width := none,
    height := none, img_id := some "x" }

/-- Tool run over a three-entry array whose middle entry is malformed. -/
def toolEnvSample : ToolEnv :=
  { argcOk := true, plyExists := true, jsonExists := true,
    plyLoad := .ok (),
    json := .arr [sampleGoodEntry, sampleBadEntry, sampleGoodEntry] }

/-- Tool run whose PLY file is missing. -/
def toolEnvNoPly : ToolEnv :=
  { argcOk := true, plyExists := false, jsonExists := true,
    plyLoad := .ok (), json := JsonTop.other }

/-- A concrete splat for the strategy witnesses. -/
def sampleSplat : Splat :=
  { position := (0, 0, 0), log_scale := (0, 0, 0), rotation := (1, 0, 0, 0),
    opacity_raw := 0, sh := [] }

/-- A concrete refine input: nothing dead, three candidate children,
identity perturbations. -/
def sampleRefineInput : RefineInput :=
  { dead := fun _ => false, resample := id,
    children := [sampleSplat, sampleSplat, sampleSplat], perturb := id }

/-! # Theorems -/

/-! ## Camera-loop lemmas (render_from_json) -/

theorem renderLoop_cons_skip (e : CamEntry) (rest : List CamEntry) (n : Nat)
    (hw : wellFormedEntry e = false) :
    renderLoop (e :: rest) n =
      ((renderLoop rest n).1,
        "Camera entry missing intrinsics or extrinsics" ::
          (renderLoop rest n).2) := by
  simp [renderLoop, processEntry, hw]

theorem renderLoop_cons_ok (e : CamEntry) (rest : List CamEntry) (n : Nat)
    (hw : wellFormedEntry e = true) :
    renderLoop (e :: rest) n =
      ({ width := e.width.getD 0, height := e.height.getD 0,
         img_id := e.img_id.getD (toString n), uid := n } ::
          (renderLoop rest (n + 1)).1,
        (renderLoop rest (n + 1)).2) := by
  simp [renderLoop, processEntry, hw]

theorem renderLoop_lengths (es : List CamEntry) :
    ∀ n : Nat,
      (renderLoop es n).1.length = (es.filter wellFormedEntry).length ∧
      (renderLoop es n).2.length =
        (es.filter (fun x => !wellFormedEntry x)).length := by
  induction es with
  | nil => intro n; simp [renderLoop]
  | cons e rest ih =>
    intro n
    cases hw : wellFormedEntry e with
    | false =>
      rw [renderLoop_cons_skip e rest n hw]
      simp [List.filter_cons, hw, ih n]
    | true =>
      rw [renderLoop_cons_ok e rest n hw]
      simp [List.filter_cons, hw, ih (n + 1)]

theorem renderLoop_uid (es : List CamEntry) :
    ∀ (n j : Nat) (c : RenderedCam),
      (renderLoop es n).1[j]? = some c → c.uid = n + j := by
  induction es with
  | nil => intro n j c h; simp [renderLoop] at h
  | cons e rest ih =>
    intro n j c h
    cases hw : wellFormedEntry e with
    | false =>
      rw [renderLoop_cons_skip e rest n hw] at h
      exact ih n j c h
    | true =>
      rw [renderLoop_cons_ok e rest n hw] at h
      cases j with
      | zero =>
        simp only [List.getElem?_cons_zero, Option.some.injEq] at h
        subst h
        simp
      | succ j =>
        simp only [List.getElem?_cons_succ] at h
        have := ih (n + 1) j c h
        omega

/-- Claim C2: for every input camera list given to the render-from-JSON
tool, an entry missing the intrinsics or extrinsics key is skipped with a
warning on standard error and processing continues with the remaining
entries; the tool exits nonzero only when the whole input is unusable
(JSON neither array nor object, missing PLY or JSON file, PLY load
failure). -/
theorem C2_entry_skip_vs_fatal (env env2 : ToolEnv) (es : List CamEntry)
    (e : String)
    (h1 : env.argcOk = true) (h2 : env.plyExists = true)
    (h3 : env.jsonExists = true) (h4 : env.plyLoad = .ok ())
    (h5 : entriesOf env.json = some es) :
    (toolMain env).exitCode = 0 ∧
    (toolMain env).rendered.length = (es.filter wellFormedEntry).length ∧
    (toolMain env).warnings.length =
      (es.filter (fun x => !wellFormedEntry x)).length ∧
    (env2.argcOk = true → env2.plyExists = false →
      (toolMain env2).exitCode ≠ 0) ∧
    (env2.argcOk = true → env2.plyExists = true → env2.jsonExists = false →
      (toolMain env2).exitCode ≠ 0) ∧
    (env2.argcOk = true → env2.plyExists = true → env2.jsonExists = true →
      env2.plyLoad = .error e → (toolMain env2).exitCode ≠ 0) ∧
    (env2.argcOk = true → env2.plyExists = true → env2.jsonExists = true →
      env2.plyLoad = .ok () → env2.json = JsonTop.other →
      (toolMain env2).exitCode ≠ 0) := by
  refine ⟨?_, ?_, ?_, ?_, ?_, ?_, ?_⟩
  · simp [toolMain, h1, h2, h3, h4, h5]
  · simp [toolMain, h1, h2, h3, h4, h5, (renderLoop_lengths es 0).1]
  · simp [toolMain, h1, h2, h3, h4, h5, (renderLoop_lengths es 0).2]
  · intro g1 g2; simp [toolMain, g1, g2]
  · intro g1 g2 g3; simp [toolMain, g1, g2, g3]
  · intro g1 g2 g3 g4; simp [toolMain, g1, g2, g3, g4]
  · intro g1 g2 g3 g4 g5; simp [toolMain, g1, g2, g3, g4, g5, entriesOf]

/-- Witness for C2 at a concrete three-entry input (middle entry
malformed) and a concrete run with a missing PLY file. -/
theorem C2_entry_skip_vs_fatal_witness :
    (toolMain toolEnvSample).exitCode = 0 ∧
    (toolMain toolEnvSample).rendered.length =
      (([sampleGoodEntry, sampleBadEntry,
         sampleGoodEntry]).filter wellFormedEntry).length ∧
    (toolMain toolEnvSample).warnings.length =
      (([sampleGoodEntry, sampleBadEntry,
         sampleGoodEntry]).filter (fun x => !wellFormedEntry x)).length ∧
    (toolEnvNoPly.argcOk = true → toolEnvNoPly.plyExists = false →
      (toolMain toolEnvNoPly).exitCode ≠ 0) ∧
    (toolEnvNoPly.argcOk = true → toolEnvNoPly.plyExists = true →
      toolEnvNoPly.jsonExists = false → (toolMain toolEnvNoPly).exitCode ≠ 0) ∧
    (toolEnvNoPly.argcOk = true → toolEnvNoPly.plyExists = true →
      toolEnvNoPly.jsonExists = true → toolEnvNoPly.plyLoad = .error "x" →
      (toolMain toolEnvNoPly).exitCode ≠ 0) ∧
    (toolEnvNoPly.argcOk = true → toolEnvNoPly.plyExists = true →
      toolEnvNoPly.jsonExists = true → toolEnvNoPly.plyLoad = .ok () →
      toolEnvNoPly.json = JsonTop.other →
      (toolMain toolEnvNoPly).exitCode ≠ 0) :=
  C2_entry_skip_vs_fatal toolEnvSample toolEnvNoPly
    [sampleGoodEntry, sampleBadEntry, sampleGoodEntry] "x"
    rfl rfl rfl rfl rfl

/-- Claim C9: in the first render-from-JSON implementation, `cam_idx` is
incremented only after a successful render, so the uid handed to the j-th
constructed camera equals the number of previously rendered cameras (j),
and a skipped malformed entry consumes no index. -/
theorem C9_cam_idx_counts_rendered (es : List CamEntry) (e : CamEntry)
    (n j : Nat) (c : RenderedCam) :
    ((renderLoop es 0).1[j]? = some c → c.uid = j) ∧
    (wellFormedEntry e = false →
      (renderLoop (e :: es) n).1 = (renderLoop es n).1) := by
  constructor
  · intro h
    have := renderLoop_uid es 0 j c h
    omega
  · intro hw
    rw [renderLoop_cons_skip e es n hw]

/-- Witness for C9: in the concrete list whose first entry is malformed,
the first rendered camera (from the second entry) gets uid 0, and the
malformed head consumes no index. -/
theorem C9_cam_idx_counts_rendered_witness :
    ((renderLoop [sampleBadEntry, sampleGoodEntry] 0).1[0]? =
        some { width := 640, height := 480, img_id := "0", uid := 0 } →
      ({ width := 640, height := 480, img_id := "0",
         uid := 0 } : RenderedCam).uid = 0) ∧
    (wellFormedEntry sampleBadEntry = false →
      (renderLoop (sampleBadEntry :: [sampleGoodEntry]) 0).1 =
        (renderLoop [sampleGoodEntry] 0).1) :=
  C9_cam_idx_counts_rendered [sampleGoodEntry] sampleBadEntry 0 0
    { width := 640, height := 480, img_id := "0", uid := 0 }

/-- Claim C10: a camera entry missing the optional keys width, height or
img_id is never rejected — width and height default to 0 and img_id to the
decimal string of the running camera index — and only a missing
intrinsics or extrinsics key causes the entry to be skipped. -/
theorem C10_optional_defaults (idx : Nat) (e : CamEntry) :
    (processEntry idx e = none ↔
      (e.hasIntrinsics = false ∨ e.hasExtrinsics = false)) ∧
    (e.hasIntrinsics = true → e.hasExtrinsics = true →
      processEntry idx e =
        some { width := e.width.getD 0, height := e.height.getD 0,
               img_id := e.img_id.getD (toString idx), uid := idx }) := by
  constructor
  · cases hi : e.hasIntrinsics <;> cases he : e.hasExtrinsics <;>
      simp [processEntry, wellFormedEntry, hi, he]
  · intro hi he
    simp [processEntry, wellFormedEntry, hi, he]

/-- Witness for C10 at a concrete entry with all three optional keys
absent and index 7: it is rendered with width 0, height 0, img_id "7". -/
theorem C10_optional_defaults_witness :
    (processEntry 7 { hasIntrinsics := true, hasExtrinsics := true,
                      width := none, height := none, img_id := none } =
        none ↔
      (({ hasIntrinsics := true, hasExtrinsics := true, width := none,
          height := none, img_id := none } : CamEntry).hasIntrinsics =
          false ∨
        ({ hasIntrinsics := true, hasExtrinsics := true, width := none,
           height := none,
           img_id := none } : CamEntry).hasExtrinsics = false)) ∧
    (({ hasIntrinsics := true, hasExtrinsics := true, width := none,
        height := none, img_id := none } : CamEntry).hasIntrinsics = true →
      ({ hasIntrinsics := true, hasExtrinsics := true, width := none,
         height := none, img_id := none } : CamEntry).hasExtrinsics = true →
      processEntry 7 { hasIntrinsics := true, hasExtrinsics := true,
                       width := none, height := none, img_id := none } =
        some { width := (none : Option Int).getD 0,
               height := (none : Option Int).getD 0,
               img_id := (none : Option String).getD (toString 7),
               uid := 7 }) :=
  C10_optional_defaults 7
    { hasIntrinsics := true, hasExtrinsics := true, width := none,
      height := none, img_id := none }

/-! ## Driver lemmas and claims -/

theorem trainCancelable_threshold (stopToken : Nat → Bool) (k : Nat)
    (hstop : ∀ j, stopToken j = true ↔ k ≤ j) :
    ∀ (fuel done : Nat), done ≤ k →
      trainCancelable stopToken fuel done = min k (done + fuel) := by
  intro fuel
  induction fuel with
  | zero =>
    intro done hd
    simp only [trainCancelable, Nat.add_zero]
    omega
  | succ m ih =>
    intro done hd
    by_cases hk : k ≤ done
    · have ht : stopToken done = true := (hstop done).mpr hk
      simp only [trainCancelable, ht, if_true]
      omega
    · have hlt : done < k := Nat.lt_of_not_le hk
      have hf : stopToken done = false := by
        cases ht : stopToken done with
        | true => exact absurd ((hstop done).mp ht) hk
        | false => rfl
      simp only [trainCancelable, hf, if_false, Bool.false_eq_true]
      rw [ih (done + 1) hlt]
      omega

/-- Claim C1 counterexample: in a GUI-mode run whose training thread fails
(`envGuiTrainErr`), the error is reported on standard error but the
process exits with status 0 — contradicting "the process exits with a
nonzero status" and "exits 0 only when training completes without
error". -/
theorem C1_counterexample_gui_error_exit_zero :
    (mainRun envGuiTrainErr).stderrLines = ["Training error: boom"] ∧
    (mainRun envGuiTrainErr).exitCode = 0 :=
  ⟨rfl, rfl⟩

/-- Claim C1 (amended): a headless training error is reported on standard
error and exits nonzero, and headless training that completes without
error exits 0; in GUI mode a training error is reported on standard error
by the training thread, but the driver still exits 0. -/
theorem C1_training_error_reporting (env : MainEnv) (p : GsParams)
    (e : String)
    (hp : env.parse = .ok p) (hv : p.viewer_mode = false)
    (hs : env.saveConfig = .ok ()) (hd : env.createDataset = .ok ())
    (hm : env.initModel = .ok ()) :
    (p.optimization.headless = true → env.train = .error e →
      (mainRun env).exitCode ≠ 0 ∧
      ("Training error: " ++ e) ∈ (mainRun env).stderrLines) ∧
    (p.optimization.headless = true → env.train = .ok () →
      (mainRun env).exitCode = 0 ∧ (mainRun env).stderrLines = []) ∧
    (p.optimization.headless = false → env.createViewer = .ok () →
      env.train = .error e →
      ("Training error: " ++ e) ∈ (mainRun env).stderrLines ∧
      (mainRun env).exitCode = 0) := by
  refine ⟨?_, ?_, ?_⟩
  · intro hh htr
    simp [mainRun, hp, hv, hs, hd, hm, hh, htr]
  · intro hh htr
    simp [mainRun, hp, hv, hs, hd, hm, hh, htr]
  · intro hh hcv htr
    simp [mainRun, hp, hv, hs, hd, hm, hh, hcv, htr]

/-- Witness for C1 at the concrete failing headless run
`envHeadlessErr`. -/
theorem C1_training_error_reporting_witness :
    (paramsHeadless.optimization.headless = true →
      envHeadlessErr.train = .error "boom" →
      (mainRun envHeadlessErr).exitCode ≠ 0 ∧
      ("Training error: " ++ "boom") ∈ (mainRun envHeadlessErr).stderrLines) ∧
    (paramsHeadless.optimization.headless = true →
      envHeadlessErr.train = .ok () →
      (mainRun envHeadlessErr).exitCode = 0 ∧
      (mainRun envHeadlessErr).stderrLines = []) ∧
    (paramsHeadless.optimization.headless = false →
      envHeadlessErr.createViewer = .ok () →
      envHeadlessErr.train = .error "boom" →
      ("Training error: " ++ "boom") ∈ (mainRun envHeadlessErr).stderrLines ∧
      (mainRun envHeadlessErr).exitCode = 0) :=
  C1_training_error_reporting envHeadlessErr paramsHeadless "boom"
    rfl rfl rfl rfl rfl

/-- Claim C3: every configuration error — argument parse failure,
config-save failure, dataset-creation failure, model-initialization
failure — is detected before the training loop, prints the error to
standard error, and exits nonzero without constructing or running the
Trainer. -/
theorem C3_config_errors_before_trainer (env : MainEnv) (p : GsParams)
    (e : String) :
    (env.parse = .error e →
      (mainRun env).exitCode ≠ 0 ∧
      ("Error: " ++ e) ∈ (mainRun env).stderrLines ∧
      (mainRun env).trainerCreated = false ∧
      (mainRun env).trainerInvoked = false) ∧
    (env.parse = .ok p → p.viewer_mode = false →
      ((env.saveConfig = .error e →
        (mainRun env).exitCode ≠ 0 ∧
        ("Error saving config: " ++ e) ∈ (mainRun env).stderrLines ∧
        (mainRun env).trainerCreated = false ∧
        (mainRun env).trainerInvoked = false) ∧
      (env.saveConfig = .ok () → env.createDataset = .error e →
        (mainRun env).exitCode ≠ 0 ∧
        ("Error creating dataset: " ++ e) ∈ (mainRun env).stderrLines ∧
        (mainRun env).trainerCreated = false ∧
        (mainRun env).trainerInvoked = false) ∧
      (env.saveConfig = .ok () → env.createDataset = .ok () →
        env.initModel = .error e →
        (mainRun env).exitCode ≠ 0 ∧
        ("Error initializing model: " ++ e) ∈ (mainRun env).stderrLines ∧
        (mainRun env).trainerCreated = false ∧
        (mainRun env).trainerInvoked = false))) := by
  constructor
  · intro h
    simp [mainRun, h, earlyExit]
  · intro hp hv
    refine ⟨?_, ?_, ?_⟩
    · intro h
      simp [mainRun, hp, hv, h, earlyExit]
    · intro hs h
      simp [mainRun, hp, hv, hs, h, earlyExit]
    · intro hs hds h
      simp [mainRun, hp, hv, hs, hds, h, earlyExit]

/-- Witness for C3 at the concrete parse-failure run `envParseErr`. -/
theorem C3_config_errors_before_trainer_witness :
    (envParseErr.parse = .error "bad arguments" →
      (mainRun envParseErr).exitCode ≠ 0 ∧
      ("Error: " ++ "bad arguments") ∈ (mainRun envParseErr).stderrLines ∧
      (mainRun envParseErr).trainerCreated = false ∧
      (mainRun envParseErr).trainerInvoked = false) ∧
    (envParseErr.parse = .ok paramsHeadless →
      paramsHeadless.viewer_mode = false →
      ((envParseErr.saveConfig = .error "bad arguments" →
        (mainRun envParseErr).exitCode ≠ 0 ∧
        ("Error saving config: " ++ "bad arguments") ∈
          (mainRun envParseErr).stderrLines ∧
        (mainRun envParseErr).trainerCreated = false ∧
        (mainRun envParseErr).trainerInvoked = false) ∧
      (envParseErr.saveConfig = .ok () →
        envParseErr.createDataset = .error "bad arguments" →
        (mainRun envParseErr).exitCode ≠ 0 ∧
        ("Error creating dataset: " ++ "bad arguments") ∈
          (mainRun envParseErr).stderrLines ∧
        (mainRun envParseErr).trainerCreated = false ∧
        (mainRun envParseErr).trainerInvoked = false) ∧
      (envParseErr.saveConfig = .ok () →
        envParseErr.createDataset = .ok () →
        envParseErr.initModel = .error "bad arguments" →
        (mainRun envParseErr).exitCode ≠ 0 ∧
        ("Error initializing model: " ++ "bad arguments") ∈
          (mainRun envParseErr).stderrLines ∧
        (mainRun envParseErr).trainerCreated = false ∧
        (mainRun envParseErr).trainerInvoked = false))) :=
  C3_config_errors_before_trainer envParseErr paramsHeadless "bad arguments"

/-- Claim C4: cancellation is not an error — in GUI mode, when the viewer
closes while training still runs, the driver requests a stop through the
cancellation token, the training thread is joined, and the process exits
0; the (spec-modelled) cancelable loop consults the token only at
iteration boundaries, so a stop first requested at boundary k lets every
started iteration finish and halts there (completing min k fuel
iterations). -/
theorem C4_gui_cancellation_exits_zero (env : MainEnv) (p : GsParams)
    (stopToken : Nat → Bool) (k fuel : Nat)
    (hp : env.parse = .ok p) (hv : p.viewer_mode = false)
    (hh : p.optimization.headless = false)
    (hs : env.saveConfig = .ok ()) (hd : env.createDataset = .ok ())
    (hm : env.initModel = .ok ()) (hcv : env.createViewer = .ok ())
    (hrun : env.trainerRunningAtViewerClose = true)
    (hstop : ∀ j, stopToken j = true ↔ k ≤ j) :
    (mainRun env).stopRequested = true ∧
    (mainRun env).threadJoined = true ∧
    (mainRun env).exitCode = 0 ∧
    trainCancelable stopToken fuel 0 = min k fuel := by
  refine ⟨?_, ?_, ?_, ?_⟩
  · simp [mainRun, hp, hv, hh, hs, hd, hm, hcv, hrun]
  · simp [mainRun, hp, hv, hh, hs, hd, hm, hcv]
  · simp [mainRun, hp, hv, hh, hs, hd, hm, hcv]
  · have := trainCancelable_threshold stopToken k hstop fuel 0 (Nat.zero_le k)
    simpa using this

/-- Witness for C4 at the concrete run `envGuiCancel` with a stop token
that turns true from boundary 2 on and fuel 5. -/
theorem C4_gui_cancellation_exits_zero_witness :
    (mainRun envGuiCancel).stopRequested = true ∧
    (mainRun envGuiCancel).threadJoined = true ∧
    (mainRun envGuiCancel).exitCode = 0 ∧
    trainCancelable (fun j => decide (2 ≤ j)) 5 0 = min 2 5 :=
  C4_gui_cancellation_exits_zero envGuiCancel paramsGui
    (fun j => decide (2 ≤ j)) 2 5 rfl rfl rfl rfl rfl rfl rfl rfl
    (by intro j; simp)

/-- Claim C6: with the viewer-only mode flag set, the program loads the
model from the PLY file and runs the standalone viewer without creating a
dataset, strategy or trainer (no training step executes), exits 0 when
the viewer closes, and exits nonzero with a message on standard error
when the PLY load fails. -/
theorem C6_viewer_mode (env : MainEnv) (p : GsParams) (n : Nat) (e : String)
    (hp : env.parse = .ok p) (hv : p.viewer_mode = true) :
    (env.loadPly = .ok n →
      (mainRun env).exitCode = 0 ∧
      (mainRun env).viewerRan = true ∧
      (mainRun env).datasetCreated = false ∧
      (mainRun env).strategyCreated = false ∧
      (mainRun env).trainerCreated = false ∧
      (mainRun env).trainerInvoked = false ∧
      (mainRun env).stderrLines = []) ∧
    (env.loadPly = .error e →
      (mainRun env).exitCode ≠ 0 ∧
      ("Error loading PLY: " ++ e) ∈ (mainRun env).stderrLines ∧
      (mainRun env).trainerCreated = false ∧
      (mainRun env).trainerInvoked = false) := by
  constructor
  · intro h
    simp [mainRun, hp, hv, h]
  · intro h
    simp [mainRun, hp, hv, h, earlyExit]

/-- Witness for C6 at the concrete viewer-mode run `envViewerOk`. -/
theorem C6_viewer_mode_witness :
    (envViewerOk.loadPly = .ok 5 →
      (mainRun envViewerOk).exitCode = 0 ∧
      (mainRun envViewerOk).viewerRan = true ∧
      (mainRun envViewerOk).datasetCreated = false ∧
      (mainRun envViewerOk).strategyCreated = false ∧
      (mainRun envViewerOk).trainerCreated = false ∧
      (mainRun envViewerOk).trainerInvoked = false ∧
      (mainRun envViewerOk).stderrLines = []) ∧
    (envViewerOk.loadPly = .error "no such file" →
      (mainRun envViewerOk).exitCode ≠ 0 ∧
      ("Error loading PLY: " ++ "no such file") ∈
        (mainRun envViewerOk).stderrLines ∧
      (mainRun envViewerOk).trainerCreated = false ∧
      (mainRun envViewerOk).trainerInvoked = false) :=
  C6_viewer_mode envViewerOk paramsViewer 5 "no such file" rfl rfl

/-! ## Splat-budget invariant (spec-modelled MCMC strategy) -/

theorem relocateDead_length (dead : Splat → Bool) (resample : Splat → Splat)
    (splats : List Splat) :
    (relocateDead dead resample splats).length = splats.length := by
  simp [relocateDead]

theorem injectNoise_length (perturb : Splat → Splat) (splats : List Splat) :
    (injectNoise perturb splats).length = splats.length := by
  simp [injectNoise]

theorem growSplats_le (cfg : McmcConfig) (children : List Splat)
    (splats : List Splat) (h : splats.length ≤ cfg.max_cap) :
    (growSplats cfg children splats).length ≤ cfg.max_cap := by
  unfold growSplats
  split
  · rw [List.length_append, List.length_take]
    omega
  · exact h

theorem postStep_le (cfg : McmcConfig) (iter : Nat) (inp : RefineInput)
    (splats : List Splat) (h : splats.length ≤ cfg.max_cap) :
    (postStep cfg iter inp splats).length ≤ cfg.max_cap := by
  unfold postStep
  split
  · unfold refineStep
    rw [injectNoise_length]
    apply growSplats_le
    rw [relocateDead_length]
    exact h
  · exact h

theorem runStrategy_le (cfg : McmcConfig) (steps : List (Nat × RefineInput)) :
    ∀ splats : List Splat, splats.length ≤ cfg.max_cap →
      (runStrategy cfg steps splats).length ≤ cfg.max_cap := by
  induction steps with
  | nil => intro splats h; simpa [runStrategy] using h
  | cons st rest ih =>
    intro splats h
    have h1 : (postStep cfg st.1 st.2 splats).length ≤ cfg.max_cap :=
      postStep_le cfg st.1 st.2 splats h
    simpa [runStrategy, List.foldl_cons] using ih _ h1

/-- Claim C5: at every iteration boundary the splat count never exceeds
the configured maximum budget — the strategy's post-step hook preserves
the bound, hence so does any whole run folded from it. -/
theorem C5_budget_invariant (cfg : McmcConfig)
    (steps : List (Nat × RefineInput)) (iter : Nat) (inp : RefineInput)
    (splats : List Splat) (h : splats.length ≤ cfg.max_cap) :
    (postStep cfg iter inp splats).length ≤ cfg.max_cap ∧
    (runStrategy cfg steps splats).length ≤ cfg.max_cap :=
  ⟨postStep_le cfg iter inp splats h, runStrategy_le cfg steps splats h⟩

/-- Witness for C5: budget 5, four initial splats, a refine boundary that
asks for three children — the step caps growth at the budget. -/
theorem C5_budget_invariant_witness :
    (postStep { max_cap := 5, refine_every := 2, start_iteration := 0,
                stop_iteration := 10 } 2 sampleRefineInput
        [sampleSplat, sampleSplat, sampleSplat, sampleSplat]).length ≤ 5 ∧
    (runStrategy { max_cap := 5, refine_every := 2, start_iteration := 0,
                   stop_iteration := 10 }
        [(2, sampleRefineInput), (4, sampleRefineInput)]
        [sampleSplat, sampleSplat, sampleSplat, sampleSplat]).length ≤ 5 :=
  C5_budget_invariant
    { max_cap := 5, refine_every := 2, start_iteration := 0,
      stop_iteration := 10 }
    [(2, sampleRefineInput), (4, sampleRefineInput)] 2 sampleRefineInput
    [sampleSplat, sampleSplat, sampleSplat, sampleSplat] (by decide)

/-- Claim C7: the core's rasterizer invocation populates exactly the
interface record — camera, model, background color, scaling modifier,
opacity-only flag (false), antialiasing flag, RGB render mode — and both
call sites pass the current model and a background color; the result
record carries the rendered image plus the auxiliary outputs. -/
theorem C7_rasterize_call_shape {Cam Model Color Img Alpha Aux : Type}
    (cam : Cam) (model : Model) (bg : Color) (sm : ℚ) (aa : Bool)
    (img : Img) (alpha : Alpha) (aux : Aux) :
    (coreRasterizeCall cam model bg sm aa).camera = cam ∧
    (coreRasterizeCall cam model bg sm aa).model = model ∧
    (coreRasterizeCall cam model bg sm aa).background_color = bg ∧
    (coreRasterizeCall cam model bg sm aa).scaling_modifier = sm ∧
    (coreRasterizeCall cam model bg sm aa).opacity_only = false ∧
    (coreRasterizeCall cam model bg sm aa).antialiasing = aa ∧
    (coreRasterizeCall cam model bg sm aa).mode = RenderMode.RGB ∧
    (toolRasterizeCall cam model bg).model = model ∧
    (toolRasterizeCall cam model bg).background_color = bg ∧
    (RasterizeOutput.mk img alpha aux).image = img ∧
    (RasterizeOutput.mk img alpha aux).alpha = alpha ∧
    (RasterizeOutput.mk img alpha aux).aux = aux :=
  ⟨rfl, rfl, rfl, rfl, rfl, rfl, rfl, rfl, rfl, rfl, rfl, rfl⟩

/-! ## Matrix lemmas for the two camera constructions -/

theorem mul4_assoc (A B C : Mat4) : mul4 (mul4 A B) C = mul4 A (mul4 B C) := by
  funext i j
  simp only [mul4]
  ring

theorem mul4_id_left (A : Mat4) : mul4 id4 A = A := by
  funext i j
  fin_cases i <;> simp +decide [mul4, id4]

theorem mul4_id_right (A : Mat4) : mul4 A id4 = A := by
  funext i j
  fin_cases j <;> simp +decide [mul4, id4]

theorem D4_mul_D4 : mul4 D4 D4 = id4 := by
  funext i j
  fin_cases i <;> fin_cases j <;> simp +decide [mul4, D4, id4]

theorem negCols12_eq_mul_D4 (c2w : Mat4) (hb1 : c2w 3 1 = 0)
    (hb2 : c2w 3 2 = 0) :
    negCols12 c2w = mul4 c2w D4 := by
  funext i j
  fin_cases i <;> fin_cases j <;>
    simp +decide [negCols12, mul4, D4, hb1, hb2]

theorem w2c2_eq_D4_mul (c2w w2c w2c2 : Mat4)
    (h2 : mul4 w2c c2w = id4)
    (h3 : mul4 (negCols12 c2w) w2c2 = id4)
    (hb1 : c2w 3 1 = 0) (hb2 : c2w 3 2 = 0) :
    w2c2 = mul4 D4 w2c := by
  have hD : mul4 (mul4 c2w D4) w2c2 = id4 := by
    rw [← negCols12_eq_mul_D4 c2w hb1 hb2]
    exact h3
  have hA : mul4 D4 w2c2 = w2c := by
    have hcong := congrArg (mul4 w2c) hD
    rw [mul4_id_right] at hcong
    rw [← mul4_assoc, ← mul4_assoc, h2, mul4_id_left] at hcong
    exact hcong
  have hcong2 := congrArg (mul4 D4) hA
  rw [← mul4_assoc, D4_mul_D4, mul4_id_left] at hcong2
  exact hcong2

/-- Claim C8 counterexample: for the camera entry whose c2w matrix is the
identity, variant 1 computes (R, T) from w2c = inverse(id4) = id4, while
variant 2 computes them from the inverse D4 of negCols12(id4); the
resulting rotations differ (rows 1 and 2 are negated), so the two
implementations do not construct the same Camera R. -/
theorem C8_counterexample_identity_c2w :
    mul4 id4 id4 = id4 ∧
    mul4 (negCols12 id4) D4 = id4 ∧
    ¬(camR2 D4 = camR1 id4 ∧ camT2 D4 = camT1 id4) := by
  refine ⟨mul4_id_left id4, ?_, ?_⟩
  · funext i j
    fin_cases i <;> fin_cases j <;> simp +decide [mul4, negCols12, D4, id4]
  · intro h
    have hR := congrFun (congrFun h.1 1) 1
    simp +decide [camR2, camR1, infoR, transpose3, topLeft3, D4, id4] at hR

/-- Claim C8 (amended): for a camera entry with c2w bottom row of
homogeneous form (entries 1 and 2 zero), the second variant's Camera
rotation and translation equal the first variant's with rows 1 and 2
negated — the double transpose cancels, but the column negation of c2w
does not, so the two (R, T) agree only up to that sign flip, not
identically. `w2c` and `w2c2` are the two `torch::inverse` results,
certified by their defining products with `c2w` and `negCols12 c2w`. -/
theorem C8_variants_differ_by_sign (c2w w2c w2c2 : Mat4)
    (h1 : mul4 c2w w2c = id4) (h2 : mul4 w2c c2w = id4)
    (h3 : mul4 (negCols12 c2w) w2c2 = id4)
    (hb1 : c2w 3 1 = 0) (hb2 : c2w 3 2 = 0) :
    camR2 w2c2 = negRows12 (camR1 w2c) ∧
    camT2 w2c2 = negRows12v (camT1 w2c) := by
  have hid : mul4 c2w w2c = id4 := h1
  have hw := w2c2_eq_D4_mul c2w w2c w2c2 h2 h3 hb1 hb2
  subst hw
  constructor
  · funext i j
    fin_cases i <;>
      simp +decide [camR2, infoR, transpose3, topLeft3, camR1, negRows12,
        mul4, D4, Fin.castSucc, Fin.castAdd, Fin.castLE]
  · funext i
    fin_cases i <;>
      simp +decide [camT2, lastCol, camT1, negRows12v, mul4, D4,
        Fin.castSucc, Fin.castAdd, Fin.castLE]

/-- Witness for C8 at the identity c2w matrix: variant 2's (R, T) equal
variant 1's with rows 1 and 2 negated. -/
theorem C8_variants_differ_by_sign_witness :
    camR2 D4 = negRows12 (camR1 id4) ∧
    camT2 D4 = negRows12v (camT1 id4) :=
  C8_variants_differ_by_sign id4 id4 D4 (mul4_id_left id4)
    (mul4_id_left id4)
    (by funext i j
        fin_cases i <;> fin_cases j <;>
          simp +decide [mul4, negCols12, D4, id4])
    (by simp +decide [id4]) (by simp +decide [id4])
